import Mathlib

/-!
Shallow embedding of the contract-management backend (`backend/server.js`):
the contract store endpoints, the status-derivation function
`checkContractStatus`, the alert generator, the search filter, the chat
briefing builder and the chat-session store, together with theorems about
the behaviour of these operations.

Dates are ISO `YYYY-MM-DD` strings; `new Date(s)` for such a string is
modelled as UTC-midnight epoch milliseconds, and the current moment `now`
is likewise an integer number of milliseconds.  JavaScript numbers that
hold whole-millisecond epoch times and whole-rupee salaries are modelled
as `Int`.
-/

namespace ContractAssistant

/-- The apostrophe character, used in the alert message template. -/
def apos : String := String.singleton (Char.ofNat 39)

/-- Splits a character list on the dash character, modelling
`s.split("-")` on the date strings fed to the date parser. -/
def splitDash : List Char → List (List Char)
  | [] => [[]]
  | c :: cs =>
    if c = Char.ofNat 45 then [] :: splitDash cs
    else
      match splitDash cs with
      | [] => [[c]]
      | g :: gs => (c :: g) :: gs

/-- Numeric value of a non-empty all-digit character list, `none` otherwise. -/
def digitsVal (l : List Char) : Option Nat :=
  if l.isEmpty then none
  else
    l.foldl
      (fun acc c =>
        match acc with
        | none => none
        | some n => if c.isDigit then some (n * 10 + (c.toNat - 48)) else none)
      (some 0)

/-- Days from the civil epoch 1970-01-01 for a proleptic Gregorian date
(the standard days-from-civil computation used by date libraries). -/
def daysFromCivil (y m d : Int) : Int :=
  let yAdj := if m ≤ 2 then y - 1 else y
  let era := yAdj.fdiv 400
  let yoe := yAdj - era * 400
  let mp := (m + 9).emod 12
  let doy := (153 * mp + 2).fdiv 5 + (d - 1)
  let doe := yoe * 365 + yoe.fdiv 4 - yoe.fdiv 100 + doy
  era * 146097 + doe - 719468

/-- Models `new Date(s).getTime()` for well-formed ISO `YYYY-MM-DD` date
strings: UTC-midnight epoch milliseconds.  Any other input is `none`,
modelling an Invalid Date (whose numeric value is NaN). -/
def parseDate (s : String) : Option Int :=
  match splitDash s.data with
  | [ys, ms, ds] =>
    match digitsVal ys, digitsVal ms, digitsVal ds with
    | some y, some m, some d =>
      if ys.length = 4 ∧ ms.length = 2 ∧ ds.length = 2 ∧
          1 ≤ m ∧ m ≤ 12 ∧ 1 ≤ d ∧ d ≤ 31 then
        some (daysFromCivil (Int.ofNat y) (Int.ofNat m) (Int.ofNat d) * 86400000)
      else none
    | _, _, _ => none
  | _ => none

/-- `Math.floor((endDate - today) / (1000*60*60*24))` on millisecond
timestamps: floor division of the signed difference by one day. -/
def daysBetween (endMs nowMs : Int) : Int :=
  (endMs - nowMs).fdiv 86400000

/-- The status chosen from a days-remaining value
(`expired` / `expiring` / `active`). -/
def statusOf (daysRemaining : Int) : String :=
  if daysRemaining < 0 then "expired"
  else if daysRemaining ≤ 30 then "expiring"
  else "active"

/-- Status derived from an `end_date` string and the current moment.  An
unparseable date gives NaN in the source, every comparison with NaN is
false, so control falls through to the final `else` branch: `active`. -/
def statusFromEnd (endStr : String) (now : Int) : String :=
  match parseDate endStr with
  | some e => statusOf (daysBetween e now)
  | none => "active"

/-- A contract record, with the exact fields built by the creation
handler in `backend/server.js`. -/
structure Contract where
  id : Nat
  title : String
  company : String
  client_name : String
  contract_type : String
  start_date : String
  end_date : String
  salary : Option Int
  notes : String
  created_at : String
  status : String
deriving DecidableEq

/-- `checkContractStatus`: recomputes `status` from `end_date` and the
current moment and stores it back on the contract. -/
def checkContractStatus (c : Contract) (now : Int) : Contract :=
  { c with status := statusFromEnd c.end_date now }

/-- The status a contract derives at a given moment. -/
def derivedStatus (c : Contract) (now : Int) : String :=
  (checkContractStatus c now).status

/-- `GET /api/contracts`: read the store and map `checkContractStatus`
over every contract. -/
def listContracts (store : List Contract) (now : Int) : List Contract :=
  store.map (fun c => checkContractStatus c now)

/-- `GET /api/contracts/:id`: find the first contract with the requested
id; 404 (`none`) if absent, otherwise the contract with its status
recomputed. -/
def getContract (store : List Contract) (pid : Nat) (now : Int) : Option Contract :=
  (store.find? (fun c => c.id == pid)).map (fun c => checkContractStatus c now)

/-- A creation request body: every field the handler reads.  `none`
models an absent JSON field. -/
structure CreateReq where
  title : Option String
  company : Option String
  client_name : Option String
  contract_type : Option String
  start_date : Option String
  end_date : Option String
  salary : Option Int
  notes : Option String
deriving DecidableEq

/-- Truthiness of a required string field: present and non-empty
(`!field` in the source is true for both `undefined` and `""`). -/
def present (o : Option String) : Bool :=
  match o with
  | some s => !s.isEmpty
  | none => false

/-- The id assigned at creation:
`contracts.length > 0 ? Math.max(...contracts.map(c => c.id)) + 1 : 1`. -/
def nextId (store : List Contract) : Nat :=
  match store with
  | [] => 1
  | _ :: _ => (store.map (fun c => c.id)).foldl Nat.max 0 + 1

/-- `POST /api/contracts`: validate the five required fields, build the
new record (`contract_type` defaulting to `"individual"`, `salary` to
`null` — note `req.body.salary || null` also sends a salary of `0` to
`null` — and `notes` to `""`), derive its status and append it to the
store.  `nowIso` models `new Date().toISOString()`.  On validation
failure the handler returns 400 before touching the store. -/
def createContract (store : List Contract) (req : CreateReq) (now : Int)
    (nowIso : String) : List Contract × Except String Contract :=
  if present req.title && present req.company && present req.client_name &&
      present req.start_date && present req.end_date then
    let c : Contract :=
      { id := nextId store
        title := req.title.getD ""
        company := req.company.getD ""
        client_name := req.client_name.getD ""
        contract_type :=
          match req.contract_type with
          | some s => if s.isEmpty then "individual" else s
          | none => "individual"
        start_date := req.start_date.getD ""
        end_date := req.end_date.getD ""
        salary :=
          match req.salary with
          | some v => if v = 0 then none else some v
          | none => none
        notes := req.notes.getD ""
        created_at := nowIso
        status := "active" }
    let c2 := checkContractStatus c now
    (store ++ [c2], Except.ok c2)
  else
    (store, Except.error "Missing required fields")

/-- An update request body: any subset of fields may be supplied, and a
supplied field overwrites the stored one (`{...existing, ...req.body}`).
`salary := some none` models an explicit JSON `null`. -/
structure UpdateReq where
  id : Option Nat
  title : Option String
  company : Option String
  client_name : Option String
  contract_type : Option String
  start_date : Option String
  end_date : Option String
  salary : Option (Option Int)
  notes : Option String
  created_at : Option String
  status : Option String
deriving DecidableEq

/-- Shallow merge `{...c, ...req}`: each supplied field wins. -/
def mergeContract (c : Contract) (req : UpdateReq) : Contract :=
  { id := req.id.getD c.id
    title := req.title.getD c.title
    company := req.company.getD c.company
    client_name := req.client_name.getD c.client_name
    contract_type := req.contract_type.getD c.contract_type
    start_date := req.start_date.getD c.start_date
    end_date := req.end_date.getD c.end_date
    salary := req.salary.getD c.salary
    notes := req.notes.getD c.notes
    created_at := req.created_at.getD c.created_at
    status := req.status.getD c.status }

/-- `PUT /api/contracts/:id`: the source locates the first index with a
matching id (`findIndex`), replaces that slot with the merged and
re-derived record, and 404s when no index matches.  This recursion walks
to the first match and replaces it in place, which is exactly that
find-index-then-assign behaviour. -/
def updateContract (store : List Contract) (pid : Nat) (req : UpdateReq)
    (now : Int) : List Contract × Except String Contract :=
  match store with
  | [] => ([], Except.error "Contract not found")
  | c :: rest =>
    if c.id == pid then
      let m := checkContractStatus (mergeContract c req) now
      (m :: rest, Except.ok m)
    else
      let r := updateContract rest pid req now
      (c :: r.1, r.2)

/-- `DELETE /api/contracts/:id`: keep every contract whose id differs,
write the result back and answer with the success message regardless of
whether the id was present. -/
def deleteContract (store : List Contract) (pid : Nat) : List Contract × String :=
  (store.filter (fun c => !(c.id == pid)), "Contract deleted")

/-- Does `pat` match at the head of `s`? -/
def headMatch : List Char → List Char → Bool
  | [], _ => true
  | _ :: _, [] => false
  | p :: ps, c :: cs => p == c && headMatch ps cs

/-- Does `pat` occur contiguously anywhere in `s`?  Models
`String.prototype.includes`. -/
def hasSub (pat : List Char) : List Char → Bool
  | [] => pat.isEmpty
  | c :: cs => headMatch pat (c :: cs) || hasSub pat cs

/-- Models `s.toLowerCase()` on the ASCII strings this system stores. -/
def lowerStr (s : String) : String :=
  String.mk (s.data.map Char.toLower)

/-- `s.includes(pat)` after the handler has lower-cased both sides. -/
def strIncludes (s pat : String) : Bool :=
  hasSub pat.data s.data

/-- `POST /api/search`: lower-case the query and keep the stored records
whose title, company, client name or stored status field contains it.
The records are returned exactly as stored; no status recomputation. -/
def searchContracts (store : List Contract) (query : String) : List Contract :=
  let term := lowerStr query
  store.filter (fun c =>
    strIncludes (lowerStr c.title) term ||
    strIncludes (lowerStr c.company) term ||
    strIncludes (lowerStr c.client_name) term ||
    strIncludes (lowerStr c.status) term)

/-- One alert emitted by `GET /api/alerts`. -/
structure Alert where
  contract_id : Nat
  title : String
  company : String
  end_date : String
  days_remaining : Int
  status : String
  message : String
deriving DecidableEq

/-- The days-remaining number recomputed inside the alert body.  An
unparseable date never reaches an alert (its derived status is
`active`), so the `none` fallback is unobservable. -/
def daysRemainingOf (endStr : String) (now : Int) : Int :=
  match parseDate endStr with
  | some e => daysBetween e now
  | none => 0

/-- The alert record built for one expiring or expired contract. -/
def alertOf (c : Contract) (now : Int) : Alert :=
  { contract_id := c.id
    title := c.title
    company := c.company
    end_date := c.end_date
    days_remaining := daysRemainingOf c.end_date now
    status := derivedStatus c now
    message := "Contract " ++ apos ++ c.title ++ apos ++ " is " ++ derivedStatus c now }

/-- `GET /api/alerts`: walk the store in order, derive each status, and
push an alert for every contract that is expiring or expired. -/
def generateAlerts (store : List Contract) (now : Int) : List Alert :=
  store.filterMap (fun c =>
    if derivedStatus c now == "expiring" || derivedStatus c now == "expired" then
      some (alertOf c now)
    else none)

/-- Two-digit zero-padded group. -/
def pad2 (n : Nat) : String :=
  if n < 10 then "0" ++ toString n else toString n

/-- Three-digit zero-padded group. -/
def pad3 (n : Nat) : String :=
  if n < 10 then "00" ++ toString n
  else if n < 100 then "0" ++ toString n
  else toString n

/-- Indian-system digit grouping of the part left of the last three
digits: groups of two from the right. -/
def inrAux (m : Nat) : String :=
  if _h : m < 100 then toString m
  else inrAux (m / 100) ++ "," ++ pad2 (m % 100)
termination_by m
decreasing_by exact Nat.div_lt_self (by omega) (by omega)

/-- Indian-system digit grouping: rightmost group of three, then groups
of two, as produced by the `en-IN` number format. -/
def inrDigits (n : Nat) : String :=
  if n < 1000 then toString n
  else inrAux (n / 1000) ++ "," ++ pad3 (n % 1000)

/-- `formatINR`: `null`, `0` (both falsy) give `Not specified`;
otherwise the INR currency rendering with no fraction digits. -/
def formatINR (amount : Option Int) : String :=
  match amount with
  | none => "Not specified"
  | some v =>
    if v = 0 then "Not specified"
    else if v < 0 then "-₹" ++ inrDigits v.natAbs
    else "₹" ++ inrDigits v.natAbs

/-- The per-contract block of the chat briefing, built from the stored
record (in particular the stored `status` field, not a recomputed one). -/
def contractBlock (c : Contract) : String :=
  "Contract ID: " ++ toString c.id ++ "\n"
    ++ "  - Title/Position: " ++ c.title ++ "\n"
    ++ "  - Company: " ++ c.company ++ "\n"
    ++ "  - Client Name: " ++ c.client_name ++ "\n"
    ++ "  - Contract Type: " ++ c.contract_type ++ "\n"
    ++ "  - Status: " ++ c.status ++ "\n"
    ++ "  - Start Date: " ++ c.start_date ++ "\n"
    ++ "  - End Date: " ++ c.end_date ++ "\n"
    ++ "  - Salary: " ++ formatINR c.salary ++ "\n"
    ++ (if c.notes.isEmpty then "" else "  - Notes: " ++ c.notes ++ "\n")
    ++ "\n"

/-- `contracts.forEach(c => summary += block)`: the blocks concatenated
in store order. -/
def concatBlocks : List Contract → String
  | [] => ""
  | c :: rest => contractBlock c ++ concatBlocks rest

/-- Leading text of the briefing. -/
def summaryHeader (n : Nat) : String :=
  "You are a helpful contract management assistant. You have access to detailed contract information including salaries.\n\n"
    ++ "Current contracts in system (Total: " ++ toString n ++ "):\n\n"

/-- Trailing instruction text of the briefing. -/
def summaryInstructions : String :=
  "\nInstructions:\n"
    ++ "- When users ask about their salary, provide the exact amount from the contract data\n"
    ++ "- Match users by their name (client_name) or position (title)\n"
    ++ "- Be specific and include all relevant details like salary, dates, and status\n"
    ++ "- If asked about status, mention days remaining for expiring contracts\n"
    ++ "- Be conversational, friendly, and helpful\n"
    ++ "- Always include salary amounts when discussing contracts\n"
    ++ "- Format responses clearly with contract details\n\n"

/-- The system prompt (`contractSummary`) assembled by `POST /api/chat`. -/
def buildSummary (contracts : List Contract) : String :=
  summaryHeader contracts.length ++ concatBlocks contracts ++ summaryInstructions

/-- One chat exchange as persisted in the session store. -/
structure Exchange where
  timestamp : String
  user : String
  bot : String
deriving DecidableEq

/-- The session store: a mapping from session id to its exchange list,
modelled as an ordered association list. -/
abbrev ChatStore : Type := List (String × List Exchange)

/-- Lookup of a session (`chatHistory[cid]`). -/
def chatGet (h : ChatStore) (cid : String) : Option (List Exchange) :=
  (h.find? (fun p => p.1 == cid)).map (fun p => p.2)

/-- `if (!chatHistory[cid]) chatHistory[cid] = []; chatHistory[cid].push(ex)`:
create the session when absent, then append at the end. -/
def chatAppend (h : ChatStore) (cid : String) (ex : Exchange) : ChatStore :=
  match chatGet h cid with
  | some _ => h.map (fun p => if p.1 == cid then (p.1, p.2 ++ [ex]) else p)
  | none => h ++ [(cid, [ex])]

/-- `GET /api/chat/history/:chat_id`: 404 when the session id is absent,
otherwise the id and its messages. -/
def getChatHistory (h : ChatStore) (cid : String) :
    Except String (String × List Exchange) :=
  match chatGet h cid with
  | some msgs => Except.ok (cid, msgs)
  | none => Except.error "Chat history not found"

/-- Successful `POST /api/chat` response body. -/
structure ChatResp where
  response : String
  chat_id : String
  timestamp : String
deriving DecidableEq

/-- `POST /api/chat`: build the briefing, call the inference service
with it and the user message, and only on a successful reply choose the
session id (`chat_id || Date.now().toString()`), append the exchange and
answer.  A failed call (unreachable endpoint or non-ok upstream status)
throws into the catch branch, which answers 500 with the remediation
hint before any history read or append has happened. -/
def handleChat (contracts : List Contract) (h : ChatStore) (msg : String)
    (reqChatId : Option String) (call : String → String → Except String String)
    (nowIso nowIdStr : String) : ChatStore × Except String ChatResp :=
  match call (buildSummary contracts) msg with
  | Except.error _ =>
    (h, Except.error "Error communicating with Ollama. Make sure Ollama is running with: ollama serve")
  | Except.ok bot =>
    let cid :=
      match reqChatId with
      | some s => if s.isEmpty then nowIdStr else s
      | none => nowIdStr
    let ex : Exchange := { timestamp := nowIso, user := msg, bot := bot }
    (chatAppend h cid ex,
      Except.ok { response := bot, chat_id := cid, timestamp := nowIso })

/-! ### Supporting lemmas -/

lemma statusOf_expired_iff (dr : Int) : statusOf dr = "expired" ↔ dr < 0 := by
  unfold statusOf
  split_ifs <;> simp_all

lemma statusOf_expiring_iff (dr : Int) :
    statusOf dr = "expiring" ↔ 0 ≤ dr ∧ dr ≤ 30 := by
  unfold statusOf
  split_ifs <;> simp_all <;> omega

lemma statusOf_active_iff (dr : Int) : statusOf dr = "active" ↔ 30 < dr := by
  unfold statusOf
  split_ifs <;> simp_all <;> omega

lemma checkContractStatus_status (c : Contract) (now : Int) :
    (checkContractStatus c now).status = statusFromEnd c.end_date now := rfl

lemma checkContractStatus_end_date (c : Contract) (now : Int) :
    (checkContractStatus c now).end_date = c.end_date := rfl

lemma filterMap_if_eq_filter_map {α β : Type} (p : α → Bool) (f : α → β)
    (l : List α) :
    l.filterMap (fun a => if p a then some (f a) else none) =
      (l.filter p).map f := by
  induction l with
  | nil => rfl
  | cons a t ih =>
    by_cases h : p a <;> simp [List.filterMap_cons, List.filter_cons, h, ih]

lemma le_foldl_max (l : List Nat) (a x : Nat) (h : x ∈ l ∨ x ≤ a) :
    x ≤ l.foldl Nat.max a := by
  induction l generalizing a with
  | nil =>
    rcases h with h | h
    · cases h
    · simpa using h
  | cons b t ih =>
    apply ih
    rcases h with h | h
    · rcases List.mem_cons.mp h with rfl | hm
      · right
        exact Nat.le_max_right a x
      · left
        exact hm
    · right
      exact Nat.le_trans h (Nat.le_max_left a b)

lemma id_lt_nextId (store : List Contract) (c : Contract) (hc : c ∈ store) :
    c.id < nextId store := by
  cases store with
  | nil => cases hc
  | cons d t =>
    have hmem : c.id ∈ (d :: t).map (fun c => c.id) :=
      List.mem_map.mpr ⟨c, hc, rfl⟩
    have := le_foldl_max ((d :: t).map (fun c => c.id)) 0 c.id (Or.inl hmem)
    simpa [nextId] using Nat.lt_succ_of_le this

lemma chatGet_find?_none (h : ChatStore) (cid : String)
    (habs : chatGet h cid = none) :
    h.find? (fun p => p.1 == cid) = none := by
  unfold chatGet at habs
  cases hf : h.find? (fun p => p.1 == cid) with
  | none => rfl
  | some p => rw [hf] at habs; cases habs

lemma chatGet_append_absent (h : ChatStore) (cid : String) (l : List Exchange)
    (habs : chatGet h cid = none) :
    chatGet (h ++ [(cid, l)]) cid = some l := by
  unfold chatGet
  rw [List.find?_append, chatGet_find?_none h cid habs]
  simp

lemma chatGet_cons (q : String × List Exchange) (t : ChatStore) (cid : String) :
    chatGet (q :: t) cid = if q.1 == cid then some q.2 else chatGet t cid := by
  by_cases hb : q.1 == cid <;> simp [chatGet, List.find?_cons, hb]

lemma chatGet_push (h : ChatStore) (cid : String) (l : List Exchange)
    (ex : Exchange) (hp : chatGet h cid = some l) :
    chatGet (h.map (fun p => if p.1 == cid then (p.1, p.2 ++ [ex]) else p)) cid
      = some (l ++ [ex]) := by
  induction h with
  | nil => cases hp
  | cons p t ih =>
    rw [chatGet_cons] at hp
    by_cases hb : p.1 == cid
    · rw [if_pos hb] at hp
      cases hp
      simp only [List.map_cons, hb, if_pos]
      rw [chatGet_cons, if_pos hb]
    · rw [if_neg hb] at hp
      simp only [List.map_cons, hb, if_neg, Bool.not_eq_true]
      rw [chatGet_cons]
      simp only [hb, if_neg, Bool.not_eq_true]
      exact ih hp

lemma chatAppend_absent (h : ChatStore) (cid : String) (ex : Exchange)
    (habs : chatGet h cid = none) :
    chatGet (chatAppend h cid ex) cid = some [ex] := by
  unfold chatAppend
  rw [habs]
  exact chatGet_append_absent h cid [ex] habs

lemma chatAppend_present (h : ChatStore) (cid : String) (l : List Exchange)
    (ex : Exchange) (hp : chatGet h cid = some l) :
    chatGet (chatAppend h cid ex) cid = some (l ++ [ex]) := by
  unfold chatAppend
  rw [hp]
  exact chatGet_push h cid l ex hp

lemma headMatch_iff (p l : List Char) : headMatch p l = true ↔ p <+: l := by
  induction p generalizing l with
  | nil => simp [headMatch, List.nil_prefix]
  | cons a ps ih =>
    cases l with
    | nil => simp [headMatch, List.prefix_nil]
    | cons b bs => simp [headMatch, List.cons_prefix_cons, ih]

lemma hasSub_iff (pat l : List Char) : hasSub pat l = true ↔ pat <:+: l := by
  induction l with
  | nil =>
    cases pat <;> simp [hasSub, List.infix_nil, List.isEmpty]
  | cons c cs ih =>
    simp [hasSub, List.infix_cons_iff, headMatch_iff, ih]

lemma strIncludes_iff (s pat : String) :
    strIncludes s pat = true ↔ pat.data <:+: s.data :=
  hasSub_iff pat.data s.data

lemma block_infix_concat (store : List Contract) (c : Contract)
    (hc : c ∈ store) :
    (contractBlock c).data <:+: (concatBlocks store).data := by
  induction store with
  | nil => cases hc
  | cons d t ih =>
    rcases List.mem_cons.mp hc with rfl | hm
    · exact ⟨[], (concatBlocks t).data, by simp [concatBlocks, String.data_append]⟩
    · exact (ih hm).trans ⟨(contractBlock d).data, [],
        by simp [concatBlocks, String.data_append]⟩

set_option maxRecDepth 8000 in
lemma statusLine_infix_block (c : Contract) :
    ("  - Status: " ++ c.status ++ "\n").data <:+: (contractBlock c).data := by
  refine ⟨("Contract ID: " ++ toString c.id ++ "\n" ++ "  - Title/Position: "
      ++ c.title ++ "\n" ++ "  - Company: " ++ c.company ++ "\n"
      ++ "  - Client Name: " ++ c.client_name ++ "\n" ++ "  - Contract Type: "
      ++ c.contract_type ++ "\n").data,
    ("  - Start Date: " ++ c.start_date ++ "\n" ++ "  - End Date: "
      ++ c.end_date ++ "\n" ++ "  - Salary: " ++ formatINR c.salary ++ "\n"
      ++ (if c.notes.isEmpty then "" else "  - Notes: " ++ c.notes ++ "\n")
      ++ "\n").data, ?_⟩
  simp [contractBlock, String.data_append]

lemma statusLine_infix_summary (store : List Contract) (c : Contract)
    (hc : c ∈ store) :
    ("  - Status: " ++ c.status ++ "\n").data <:+: (buildSummary store).data :=
  ((statusLine_infix_block c).trans (block_infix_concat store c hc)).trans
    ⟨(summaryHeader store.length).data, (summaryInstructions).data,
      by simp [buildSummary, String.data_append]⟩

lemma updateContract_found (post : List Contract) (c : Contract) (pid : Nat)
    (req : UpdateReq) (now : Int) (hc : c.id = pid) :
    ∀ pre : List Contract, (∀ d ∈ pre, d.id ≠ pid) →
      updateContract (pre ++ c :: post) pid req now =
        (pre ++ checkContractStatus (mergeContract c req) now :: post,
          Except.ok (checkContractStatus (mergeContract c req) now)) := by
  intro pre
  induction pre with
  | nil =>
    intro _
    simp [updateContract, hc]
  | cons d t ih =>
    intro hpre
    have hd : ¬(d.id == pid) = true := by
      simpa using hpre d (List.mem_cons_self d t)
    have ht := ih (fun x hx => hpre x (List.mem_cons_of_mem d hx))
    simp [updateContract, hd, ht]

/-! ### Concrete sample data for witnesses and counterexamples -/

/-- A fixed current moment: an instant in late September 2026. -/
def now0 : Int := 1790000000000

/-- A contract whose `end_date` string is the civil epoch day. -/
def c1W : Contract :=
  { id := 1, title := "Epoch", company := "Co", client_name := "N",
    contract_type := "individual", start_date := "1969-01-01",
    end_date := "1970-01-01", salary := none, notes := "",
    created_at := "1969-01-01T00:00:00.000Z", status := "active" }

/-- A stored record whose persisted status (`active`) is stale: its end
date passed long before `now0`. -/
def c2Stale : Contract :=
  { id := 1, title := "T", company := "Co", client_name := "N",
    contract_type := "individual", start_date := "2020-01-01",
    end_date := "2020-06-01", salary := none, notes := "",
    created_at := "2020-01-01T00:00:00.000Z", status := "active" }

/-- A creation request that submits a salary of `0`. -/
def req3zero : CreateReq :=
  { title := some "Developer", company := some "Acme",
    client_name := some "Ann", contract_type := none,
    start_date := some "2026-01-01", end_date := some "2026-12-31",
    salary := some 0, notes := none }

/-- A valid creation request with a non-zero salary. -/
def req3pos : CreateReq :=
  { title := some "Developer", company := some "Acme",
    client_name := some "Ann", contract_type := none,
    start_date := some "2026-01-01", end_date := some "2026-12-31",
    salary := some 150000, notes := some "remote" }

/-- A contract that derives `expired` at `now0`. -/
def c4Expired : Contract :=
  { id := 1, title := "T", company := "Co", client_name := "N",
    contract_type := "individual", start_date := "2020-01-01",
    end_date := "2020-06-01", salary := none, notes := "",
    created_at := "2020-01-01T00:00:00.000Z", status := "active" }

/-- A contract that derives `active` at `now0`. -/
def c4Active : Contract :=
  { id := 2, title := "U", company := "Co", client_name := "M",
    contract_type := "individual", start_date := "2020-01-01",
    end_date := "2099-01-01", salary := none, notes := "",
    created_at := "2020-01-01T00:00:00.000Z", status := "active" }

/-- A creation request missing `end_date`. -/
def req5NoEnd : CreateReq :=
  { title := some "Developer", company := some "Acme",
    client_name := some "Ann", contract_type := none,
    start_date := some "2026-01-01", end_date := none,
    salary := none, notes := none }

/-- A stored contract with id 2, so that id 5 is absent. -/
def c6A : Contract :=
  { id := 2, title := "T", company := "Co", client_name := "N",
    contract_type := "individual", start_date := "2026-01-01",
    end_date := "2026-12-31", salary := none, notes := "",
    created_at := "2026-01-01T00:00:00.000Z", status := "active" }

/-! ### Claims -/

/-- C1: `checkContractStatus` computes
`daysRemaining = floor((end_date - now) / 1 day)` and returns `expired`
iff `daysRemaining < 0`, `expiring` iff `0 ≤ daysRemaining ≤ 30`, and
`active` iff `daysRemaining > 30`; in particular (comparing `end_date`
and `now` in the same reference frame) an end date equal to the current
moment is `expiring`, one day earlier is `expired`, thirty days later is
`expiring`, and thirty-one days later is `active`. -/
theorem C1_checkContractStatus (c : Contract) (now e : Int)
    (h : parseDate c.end_date = some e) :
    ((checkContractStatus c now).status = "expired" ↔ daysBetween e now < 0) ∧
    ((checkContractStatus c now).status = "expiring" ↔
      0 ≤ daysBetween e now ∧ daysBetween e now ≤ 30) ∧
    ((checkContractStatus c now).status = "active" ↔ 30 < daysBetween e now) ∧
    (e = now → (checkContractStatus c now).status = "expiring") ∧
    (e = now - 86400000 → (checkContractStatus c now).status = "expired") ∧
    (e = now + 30 * 86400000 → (checkContractStatus c now).status = "expiring") ∧
    (e = now + 31 * 86400000 → (checkContractStatus c now).status = "active") := by
  have hs : (checkContractStatus c now).status = statusOf (daysBetween e now) := by
    simp [checkContractStatus, statusFromEnd, h]
  rw [hs]
  refine ⟨statusOf_expired_iff _, statusOf_expiring_iff _, statusOf_active_iff _,
    ?_, ?_, ?_, ?_⟩
  · intro he
    rw [he]
    have harith : (now - now : Int) = 0 := by ring
    unfold daysBetween
    rw [harith]
    decide
  · intro he
    rw [he]
    have harith : (now - 86400000 - now : Int) = -86400000 := by ring
    unfold daysBetween
    rw [harith]
    decide
  · intro he
    rw [he]
    have harith : (now + 30 * 86400000 - now : Int) = 2592000000 := by ring
    unfold daysBetween
    rw [harith]
    decide
  · intro he
    rw [he]
    have harith : (now + 31 * 86400000 - now : Int) = 2678400000 := by ring
    unfold daysBetween
    rw [harith]
    decide

/-- C1 witness: at the concrete moment `0` a contract ending
`1970-01-01` (which parses to `0`) derives `expiring`. -/
theorem C1_checkContractStatus_witness :
    (checkContractStatus c1W 0).status = "expiring" :=
  (C1_checkContractStatus c1W 0 0 (by decide)).2.2.2.1 rfl

/-- C2 counterexample: the search read path returns a contract carrying
its stored status `active` even though recomputing from `end_date` at
`now0` gives `expired`, so not every status-exposing read path
recomputes the status. -/
theorem C2_counterexample :
    searchContracts [c2Stale] "active" = [c2Stale] ∧
    c2Stale.status = "active" ∧
    derivedStatus c2Stale now0 = "expired" ∧
    ("active" : String) ≠ "expired" :=
  ⟨by decide, rfl, by decide, by decide⟩

/-- C2 amended: listing, single fetch and alert generation recompute the
returned status from `end_date` and the current moment, but the search
results are the stored records verbatim (stored status included), and
the chat briefing embeds the stored status field verbatim. -/
theorem C2_amended_paths (store : List Contract) (now : Int) (pid : Nat)
    (q : String) :
    (∀ c ∈ listContracts store now, c.status = statusFromEnd c.end_date now) ∧
    (∀ c, getContract store pid now = some c →
      c.status = statusFromEnd c.end_date now) ∧
    (∀ a ∈ generateAlerts store now, a.status = statusFromEnd a.end_date now) ∧
    (∀ c ∈ searchContracts store q, c ∈ store) ∧
    (∀ c ∈ store,
      ("  - Status: " ++ c.status ++ "\n").data <:+: (buildSummary store).data) := by
  refine ⟨?_, ?_, ?_, ?_, ?_⟩
  · intro c hc
    obtain ⟨c0, _, rfl⟩ := List.mem_map.mp hc
    rfl
  · intro c hc
    obtain ⟨c0, _, rfl⟩ := Option.map_eq_some'.mp hc
    rfl
  · intro a ha
    obtain ⟨c, _, heq⟩ := List.mem_filterMap.mp ha
    by_cases hcase :
        (derivedStatus c now == "expiring" || derivedStatus c now == "expired") = true
    · rw [if_pos hcase] at heq
      cases heq
      rfl
    · rw [if_neg hcase] at heq
      cases heq
  · intro c hc
    exact (List.mem_filter.mp hc).1
  · intro c hc
    exact statusLine_infix_summary store c hc

/-- C2 amended witness at a concrete one-contract store. -/
theorem C2_amended_paths_witness :
    ("  - Status: " ++ c2Stale.status ++ "\n").data <:+:
      (buildSummary [c2Stale]).data :=
  (C2_amended_paths [c2Stale] now0 1 "t").2.2.2.2 c2Stale (by simp)

/-- C3 counterexample: a creation request submitting `salary = 0` is
persisted with `salary = null` (`req.body.salary || null` treats `0` as
absent), so the create-then-fetch round trip does not return the
submitted salary when it is `0`. -/
theorem C3_counterexample :
    req3zero.salary = some 0 ∧
    (getContract (createContract [] req3zero now0
        "2026-01-01T00:00:00.000Z").1 1 now0).map (fun f => f.salary) =
      some none ∧
    some (0 : Int) ≠ (none : Option Int) :=
  ⟨rfl, by decide, by decide⟩

/-- C3 amended: for every valid creation request whose salary is not the
falsy value `0`, creating and then fetching by the returned id yields
exactly the submitted fields (with `contract_type`, `salary` and `notes`
defaulting when omitted) plus a status derived from `end_date` and the
current moment; a submitted salary of `0` is stored as `null`. -/
theorem C3_roundTrip (store : List Contract) (req : CreateReq) (now : Int)
    (nowIso : String)
    (ht : present req.title = true) (hco : present req.company = true)
    (hcl : present req.client_name = true) (hsd : present req.start_date = true)
    (hed : present req.end_date = true) (hsal : req.salary ≠ some 0) :
    ∃ c2, (createContract store req now nowIso).2 = Except.ok c2 ∧
      ∃ f, getContract (createContract store req now nowIso).1 c2.id now = some f ∧
        f.title = req.title.getD "" ∧
        f.company = req.company.getD "" ∧
        f.client_name = req.client_name.getD "" ∧
        f.contract_type = (match req.contract_type with
          | some s => if s.isEmpty then "individual" else s
          | none => "individual") ∧
        f.start_date = req.start_date.getD "" ∧
        f.end_date = req.end_date.getD "" ∧
        f.salary = req.salary ∧
        f.notes = req.notes.getD "" ∧
        f.created_at = nowIso ∧
        f.status = statusFromEnd f.end_date now := by
  have hcond : (present req.title && present req.company &&
      present req.client_name && present req.start_date &&
      present req.end_date) = true := by
    rw [ht, hco, hcl, hsd, hed]
    rfl
  set c0 : Contract :=
    { id := nextId store
      title := req.title.getD ""
      company := req.company.getD ""
      client_name := req.client_name.getD ""
      contract_type :=
        match req.contract_type with
        | some s => if s.isEmpty then "individual" else s
        | none => "individual"
      start_date := req.start_date.getD ""
      end_date := req.end_date.getD ""
      salary :=
        match req.salary with
        | some v => if v = 0 then none else some v
        | none => none
      notes := req.notes.getD ""
      created_at := nowIso
      status := "active" } with hc0
  have hcreate : createContract store req now nowIso =
      (store ++ [checkContractStatus c0 now], Except.ok (checkContractStatus c0 now)) := by
    unfold createContract
    rw [if_pos hcond]
  refine ⟨checkContractStatus c0 now, by rw [hcreate], ?_⟩
  have hid2 : (checkContractStatus c0 now).id = nextId store := rfl
  have hfind : (store ++ [checkContractStatus c0 now]).find?
      (fun c => c.id == (checkContractStatus c0 now).id) =
      some (checkContractStatus c0 now) := by
    rw [List.find?_append]
    have h1 : store.find? (fun c => c.id == (checkContractStatus c0 now).id) = none :=
      List.find?_eq_none.mpr (fun d hd => by
        simp only [beq_iff_eq, hid2]
        exact Nat.ne_of_lt (id_lt_nextId store d hd))
    rw [h1]
    simp [List.find?]
  refine ⟨checkContractStatus (checkContractStatus c0 now) now, ?_, ?_, rfl, rfl,
    rfl, rfl, rfl, ?_, rfl, rfl, rfl⟩
  · rw [hcreate]
    unfold getContract
    rw [hfind]
    rfl
  · rfl
  · show c0.salary = req.salary
    rw [hc0]
    cases hs : req.salary with
    | none => rfl
    | some v =>
      have hv : ¬v = 0 := by
        intro h0
        exact hsal (by rw [hs, h0])
      simp [hv]

/-- C3 witness: a concrete valid request with a non-zero salary round
trips through create and fetch. -/
theorem C3_roundTrip_witness :
    ∃ c2, (createContract [] req3pos now0 "2026-01-01T00:00:00.000Z").2 =
        Except.ok c2 ∧
      ∃ f, getContract (createContract [] req3pos now0
          "2026-01-01T00:00:00.000Z").1 c2.id now0 = some f ∧
        f.title = req3pos.title.getD "" ∧
        f.company = req3pos.company.getD "" ∧
        f.client_name = req3pos.client_name.getD "" ∧
        f.contract_type = (match req3pos.contract_type with
          | some s => if s.isEmpty then "individual" else s
          | none => "individual") ∧
        f.start_date = req3pos.start_date.getD "" ∧
        f.end_date = req3pos.end_date.getD "" ∧
        f.salary = req3pos.salary ∧
        f.notes = req3pos.notes.getD "" ∧
        f.created_at = "2026-01-01T00:00:00.000Z" ∧
        f.status = statusFromEnd f.end_date now0 :=
  C3_roundTrip [] req3pos now0 "2026-01-01T00:00:00.000Z"
    (by decide) (by decide) (by decide) (by decide) (by decide) (by decide)

/-- C4: the alert list is exactly the expiring-or-expired contracts of
the store, in store order, each mapped to the alert record (contract id,
title, company, end date, recomputed days remaining, derived status, and
a message naming the title and the status); contracts deriving `active`
produce no alert.  Over the concrete store
`[expired contract id 1, active contract id 2]` exactly one alert is
produced, for id 1. -/
theorem C4_generateAlerts (store : List Contract) (now : Int) :
    (generateAlerts store now =
      (store.filter (fun c =>
        derivedStatus c now == "expiring" ||
          derivedStatus c now == "expired")).map (fun c => alertOf c now)) ∧
    derivedStatus c4Expired now0 = "expired" ∧
    derivedStatus c4Active now0 = "active" ∧
    generateAlerts [c4Expired, c4Active] now0 = [alertOf c4Expired now0] ∧
    (alertOf c4Expired now0).contract_id = 1 ∧
    (alertOf c4Expired now0).message =
      "Contract " ++ apos ++ c4Expired.title ++ apos ++ " is expired" := by
  refine ⟨?_, by decide, by decide, by decide, by decide, by decide⟩
  unfold generateAlerts
  exact filterMap_if_eq_filter_map _ _ store

/-- C5: a creation request with any of the five required fields absent
or empty is rejected with the 400 `Missing required fields` error and
the store is returned unchanged. -/
theorem C5_validation (store : List Contract) (req : CreateReq) (now : Int)
    (nowIso : String)
    (h : present req.title = false ∨ present req.company = false ∨
      present req.client_name = false ∨ present req.start_date = false ∨
      present req.end_date = false) :
    createContract store req now nowIso =
      (store, Except.error "Missing required fields") := by
  unfold createContract
  rcases h with h | h | h | h | h <;> simp [h]

/-- C5 witness: the spec scenario — a request missing `end_date` is
rejected and an empty store stays empty. -/
theorem C5_validation_witness :
    createContract [] req5NoEnd now0 "2026-01-01T00:00:00.000Z" =
      ([], Except.error "Missing required fields") :=
  C5_validation [] req5NoEnd now0 "2026-01-01T00:00:00.000Z"
    (Or.inr (Or.inr (Or.inr (Or.inr (by decide)))))

/-- C6: deleting an id absent from the store is a no-op that still
answers the success message, and doing it twice gives the same success
response both times. -/
theorem C6_delete (store : List Contract) (pid : Nat)
    (h : ∀ c ∈ store, c.id ≠ pid) :
    deleteContract store pid = (store, "Contract deleted") ∧
    deleteContract (deleteContract store pid).1 pid =
      (store, "Contract deleted") := by
  have hf : store.filter (fun c => !(c.id == pid)) = store :=
    List.filter_eq_self.mpr (fun c hc => by simpa using h c hc)
  constructor
  · unfold deleteContract
    rw [hf]
  · unfold deleteContract
    simp only [hf]

/-- C6 witness: deleting the absent id 5 twice from a one-contract
store. -/
theorem C6_delete_witness :
    deleteContract [c6A] 5 = ([c6A], "Contract deleted") ∧
    deleteContract (deleteContract [c6A] 5).1 5 = ([c6A], "Contract deleted") :=
  C6_delete [c6A] 5 (by decide)

/-- The stored contract used for the C7 counterexample. -/
def c7Orig : Contract :=
  { id := 1, title := "T", company := "Co", client_name := "N",
    contract_type := "individual", start_date := "2024-01-01",
    end_date := "2026-12-31", salary := some 100000, notes := "",
    created_at := "2024-01-01T00:00:00.000Z", status := "active" }

/-- An update request body that supplies only `created_at`. -/
def req7CA : UpdateReq :=
  { id := none, title := none, company := none, client_name := none,
    contract_type := none, start_date := none, end_date := none,
    salary := none, notes := none,
    created_at := some "1999-12-31T00:00:00.000Z", status := none }

/-- An update request body that supplies only `title`. -/
def req7Title : UpdateReq :=
  { id := none, title := some "Renamed", company := none, client_name := none,
    contract_type := none, start_date := none, end_date := none,
    salary := none, notes := none, created_at := none, status := none }

/-- C7 counterexample: an update request body that supplies `created_at`
overwrites the stored `created_at` (`{...existing, ...req.body}` lets
every supplied field win), so not every partial-field update leaves
`created_at` unchanged. -/
theorem C7_counterexample :
    c7Orig.created_at = "2024-01-01T00:00:00.000Z" ∧
    (updateContract [c7Orig] 1 req7CA now0).2.toOption.map
        (fun r => r.created_at) = some "1999-12-31T00:00:00.000Z" ∧
    ("2024-01-01T00:00:00.000Z" : String) ≠ "1999-12-31T00:00:00.000Z" :=
  ⟨rfl, by decide, by decide⟩

/-- C7 amended: updating an existing contract merges every supplied
field shallowly over the stored record (supplied values win, `id` and
`created_at` included) and re-derives the status; whenever the request
supplies neither `id` nor `created_at`, both are left unchanged. -/
theorem C7_update (pre post : List Contract) (c : Contract) (pid : Nat)
    (req : UpdateReq) (now : Int)
    (hpre : ∀ d ∈ pre, d.id ≠ pid) (hc : c.id = pid)
    (hid : req.id = none) (hca : req.created_at = none) :
    updateContract (pre ++ c :: post) pid req now =
      (pre ++ checkContractStatus (mergeContract c req) now :: post,
        Except.ok (checkContractStatus (mergeContract c req) now)) ∧
    (checkContractStatus (mergeContract c req) now).created_at = c.created_at ∧
    (checkContractStatus (mergeContract c req) now).id = c.id ∧
    (checkContractStatus (mergeContract c req) now).title =
      req.title.getD c.title ∧
    (checkContractStatus (mergeContract c req) now).company =
      req.company.getD c.company ∧
    (checkContractStatus (mergeContract c req) now).client_name =
      req.client_name.getD c.client_name ∧
    (checkContractStatus (mergeContract c req) now).contract_type =
      req.contract_type.getD c.contract_type ∧
    (checkContractStatus (mergeContract c req) now).start_date =
      req.start_date.getD c.start_date ∧
    (checkContractStatus (mergeContract c req) now).end_date =
      req.end_date.getD c.end_date ∧
    (checkContractStatus (mergeContract c req) now).salary =
      req.salary.getD c.salary ∧
    (checkContractStatus (mergeContract c req) now).notes =
      req.notes.getD c.notes ∧
    (checkContractStatus (mergeContract c req) now).status =
      statusFromEnd (req.end_date.getD c.end_date) now := by
  refine ⟨updateContract_found post c pid req now hc pre hpre,
    ?_, ?_, rfl, rfl, rfl, rfl, rfl, rfl, rfl, rfl, rfl⟩
  · show (mergeContract c req).created_at = c.created_at
    simp [mergeContract, hca]
  · show (mergeContract c req).id = c.id
    simp [mergeContract, hid]

/-- C7 witness: a title-only update of a one-contract store keeps `id`
and `created_at` and re-derives the status. -/
theorem C7_update_witness :
    updateContract ([] ++ c7Orig :: []) 1 req7Title now0 =
      ([] ++ checkContractStatus (mergeContract c7Orig req7Title) now0 :: [],
        Except.ok (checkContractStatus (mergeContract c7Orig req7Title) now0)) ∧
    (checkContractStatus (mergeContract c7Orig req7Title) now0).created_at =
      c7Orig.created_at ∧
    (checkContractStatus (mergeContract c7Orig req7Title) now0).id = c7Orig.id ∧
    (checkContractStatus (mergeContract c7Orig req7Title) now0).title =
      req7Title.title.getD c7Orig.title ∧
    (checkContractStatus (mergeContract c7Orig req7Title) now0).company =
      req7Title.company.getD c7Orig.company ∧
    (checkContractStatus (mergeContract c7Orig req7Title) now0).client_name =
      req7Title.client_name.getD c7Orig.client_name ∧
    (checkContractStatus (mergeContract c7Orig req7Title) now0).contract_type =
      req7Title.contract_type.getD c7Orig.contract_type ∧
    (checkContractStatus (mergeContract c7Orig req7Title) now0).start_date =
      req7Title.start_date.getD c7Orig.start_date ∧
    (checkContractStatus (mergeContract c7Orig req7Title) now0).end_date =
      req7Title.end_date.getD c7Orig.end_date ∧
    (checkContractStatus (mergeContract c7Orig req7Title) now0).salary =
      req7Title.salary.getD c7Orig.salary ∧
    (checkContractStatus (mergeContract c7Orig req7Title) now0).notes =
      req7Title.notes.getD c7Orig.notes ∧
    (checkContractStatus (mergeContract c7Orig req7Title) now0).status =
      statusFromEnd (req7Title.end_date.getD c7Orig.end_date) now0 :=
  C7_update [] [] c7Orig 1 req7Title now0 (by decide) rfl rfl rfl

/-- A contract titled `Quality Assurance`. -/
def c8QA : Contract :=
  { id := 3, title := "Quality Assurance", company := "Co",
    client_name := "N", contract_type := "individual",
    start_date := "2026-01-01", end_date := "2099-01-01", salary := none,
    notes := "", created_at := "2026-01-01T00:00:00.000Z", status := "active" }

/-- A contract matching nothing containing `quality`. -/
def c8Other : Contract :=
  { id := 4, title := "Backend Developer", company := "Beta",
    client_name := "Bob", contract_type := "individual",
    start_date := "2026-01-01", end_date := "2099-01-01", salary := none,
    notes := "", created_at := "2026-01-01T00:00:00.000Z", status := "active" }

/-- C8: search returns, in store order, exactly the subsequence of
contracts for which the lower-cased term occurs as a substring of the
lower-cased title, company, client name or status field (OR semantics);
over a store whose only match is the contract titled
`Quality Assurance`, searching `quality` returns exactly it. -/
theorem C8_search (store : List Contract) (q : String) :
    (searchContracts store q).Sublist store ∧
    (∀ c ∈ store, c ∈ searchContracts store q ↔
      ((lowerStr q).data <:+: (lowerStr c.title).data ∨
       (lowerStr q).data <:+: (lowerStr c.company).data ∨
       (lowerStr q).data <:+: (lowerStr c.client_name).data ∨
       (lowerStr q).data <:+: (lowerStr c.status).data)) ∧
    searchContracts [c8QA, c8Other] "quality" = [c8QA] := by
  refine ⟨List.filter_sublist store, ?_, by decide⟩
  intro c hc
  simp [searchContracts, List.mem_filter, hc, strIncludes_iff]
  tauto

/-- C8 witness: the membership characterisation at the concrete
`quality` search. -/
theorem C8_search_witness :
    c8QA ∈ searchContracts [c8QA, c8Other] "quality" ↔
      ((lowerStr "quality").data <:+: (lowerStr c8QA.title).data ∨
       (lowerStr "quality").data <:+: (lowerStr c8QA.company).data ∨
       (lowerStr "quality").data <:+: (lowerStr c8QA.client_name).data ∨
       (lowerStr "quality").data <:+: (lowerStr c8QA.status).data) :=
  (C8_search [c8QA, c8Other] "quality").2.1 c8QA (by simp)

/-- A first chat exchange. -/
def ex9a : Exchange :=
  { timestamp := "2026-10-11T10:00:00.000Z", user := "hello",
    bot := "Hi, how can I help?" }

/-- A second chat exchange. -/
def ex9b : Exchange :=
  { timestamp := "2026-10-11T10:01:00.000Z", user := "list my contracts",
    bot := "Here they are." }

/-- C9: appending to an absent session id creates the session and
appends at the end; two appends to a fresh id followed by a history read
return exactly both exchanges in insertion order with their text
preserved, while reading an unknown session id is the 404
`Chat history not found` error. -/
theorem C9_chatHistory (h : ChatStore) (cid : String) (e1 e2 : Exchange)
    (hfresh : chatGet h cid = none) :
    getChatHistory h cid = Except.error "Chat history not found" ∧
    getChatHistory (chatAppend (chatAppend h cid e1) cid e2) cid =
      Except.ok (cid, [e1, e2]) := by
  constructor
  · unfold getChatHistory
    rw [hfresh]
  · have h1 := chatAppend_absent h cid e1 hfresh
    have h2 := chatAppend_present (chatAppend h cid e1) cid [e1] e2 h1
    unfold getChatHistory
    rw [h2]
    rfl

/-- C9 witness: two concrete exchanges on a fresh session of the empty
store. -/
theorem C9_chatHistory_witness :
    getChatHistory [] "session-1" = Except.error "Chat history not found" ∧
    getChatHistory (chatAppend (chatAppend [] "session-1" ex9a) "session-1" ex9b)
        "session-1" = Except.ok ("session-1", [ex9a, ex9b]) :=
  C9_chatHistory [] "session-1" ex9a ex9b rfl

/-- C10: when the inference call fails (unreachable endpoint or non-ok
upstream status, both modelled by an error result of the call), the chat
handler answers the 500 error carrying the remediation hint and the
session store is returned unchanged — no exchange is appended, because
the history read and append happen only after a successful reply. -/
theorem C10_chatFailure (contracts : List Contract) (h : ChatStore)
    (msg : String) (rid : Option String)
    (call : String → String → Except String String) (nowIso nowIdStr e : String)
    (hcall : call (buildSummary contracts) msg = Except.error e) :
    handleChat contracts h msg rid call nowIso nowIdStr =
      (h, Except.error
        "Error communicating with Ollama. Make sure Ollama is running with: ollama serve") := by
  unfold handleChat
  rw [hcall]

/-- C10 witness: a concrete always-failing inference call leaves a
concrete session store untouched and yields the hint error. -/
theorem C10_chatFailure_witness :
    handleChat [c4Active] [("session-1", [ex9a])] "hello" none
        (fun _ _ => Except.error "connection refused")
        "2026-10-11T10:00:00.000Z" "1790000000001" =
      ([("session-1", [ex9a])], Except.error
        "Error communicating with Ollama. Make sure Ollama is running with: ollama serve") :=
  C10_chatFailure [c4Active] [("session-1", [ex9a])] "hello" none
    (fun _ _ => Except.error "connection refused")
    "2026-10-11T10:00:00.000Z" "1790000000001" "connection refused" rfl

end ContractAssistant
